import Mathlib

/-!
Formal model of the repository script scripts/validate-frontmatter.py.

The script extracts a YAML frontmatter block from the start of each blog
post, applies three field rules to the parsed mapping, and reports all
violations over the corpus with a process exit code.

Modelling conventions:
  - Document text is a list of characters.
  - The module constant FRONTMATTER_REGEX, namely the compiled pattern
    caret dash dash dash backslash-s star newline, lazy dotall group,
    newline dash dash dash backslash-s star newline, used through re.match
    (so anchored at position 0 of the text), is modelled by an executable
    backtracking matcher returning the first capture group, with the same
    greedy and lazy preferences as the Python engine.
  - The external library function yaml.safe_load is not code of this
    repository; the functions that call it are parameterized by an
    arbitrary parser of type YamlParse.  An exception raised by the parser
    is Except.error, a successful parse is Except.ok; safe_load returning
    the Python value None is Except.ok none.  The script contains no
    try or except, so parser errors propagate.
  - Python values appearing in a parsed mapping are modelled by the
    inductive type Yaml (null, booleans, integers, strings, lists);
    Python truthiness and the Python equality comparison with True are
    modelled by pyFalsy and pyEqTrue.
  - File paths and file reading are abstracted: the aggregator is modelled
    over a list of path and content pairs.
-/

/-- Characters matched by the regex class backslash-s, restricted to the
ASCII range (space, tab, newline, carriage return, vertical tab, form
feed).  All document texts considered in this development are ASCII. -/
def isSpace (c : Char) : Bool :=
  c == ' ' || c == '\t' || c == '\n' || c == '\r' || c == '\x0b' || c == '\x0c'

/-- Matches the regex fragment backslash-s star followed by a literal
newline against a prefix of the input, as a success test only (used where
the rest of the pattern is unconstrained, so backtracking order does not
matter): succeeds exactly when the input starts with zero or more
whitespace characters followed by a newline. -/
def wsNl : List Char → Bool
  | [] => false
  | c :: rest => if c == '\n' then true else isSpace c && wsNl rest

/-- Matches the closing part of the pattern, newline dash dash dash
backslash-s star newline, against a prefix of the input. -/
def closeAt : List Char → Bool
  | '\n' :: '-' :: '-' :: '-' :: rest => wsNl rest
  | _ => false

/-- The lazy group of the pattern: among all prefixes of the input after
which the closing delimiter matches, return the shortest one (the Python
engine tries the shortest extension of a lazy group first).  The
accumulator holds the group read so far, reversed. -/
def lazyGroup : List Char → List Char → Option (List Char)
  | acc, [] => if closeAt [] then some acc.reverse else none
  | acc, c :: rest =>
    if closeAt (c :: rest) then some acc.reverse
    else lazyGroup (c :: acc) rest

/-- Matches backslash-s star, newline, then the lazy group and closing
delimiter.  Greedy star: prefer consuming a whitespace character into the
star and only on failure use a newline as the literal newline of the
pattern, exactly the Python backtracking preference. -/
def openRest : List Char → Option (List Char)
  | [] => none
  | c :: rest =>
    if isSpace c then
      match openRest rest with
      | some g => some g
      | none => if c == '\n' then lazyGroup [] rest else none
    else none

/-- Model of FRONTMATTER_REGEX.match applied to the document text:
anchored at position 0, requires the literal three dashes first, and
returns the first capture group (the inner text of the header block) on
success. -/
def FRONTMATTER_REGEX : List Char → Option (List Char)
  | '-' :: '-' :: '-' :: rest => openRest rest
  | _ => none

/-- Values a parsed metadata mapping can hold: Python None, booleans,
integers, strings and lists, as produced by the YAML parser for the
scalar and sequence shapes this script works with. -/
inductive Yaml : Type where
  | null : Yaml
  | bool : Bool → Yaml
  | int : Int → Yaml
  | str : String → Yaml
  | list : List Yaml → Yaml

/-- A parsed metadata mapping: association list from string keys to
values.  Python dictionaries have unique keys; all access below goes
through fmGet, which returns the first binding. -/
def Fm : Type := List (String × Yaml)

/-- Python dict.get without a default: the value bound to the key, if
present. -/
def fmGet : Fm → String → Option Yaml
  | [], _ => none
  | kv :: rest, k => if kv.1 == k then some kv.2 else fmGet rest k

/-- Python truthiness, negated: pyFalsy v is true exactly when the Python
expression not v is true for the modelled value (None, False, zero, the
empty string and the empty list are falsy). -/
def pyFalsy : Yaml → Bool
  | .null => true
  | .bool b => !b
  | .int n => n == 0
  | .str s => s == ""
  | .list xs => xs.isEmpty

/-- The Python comparison v == True for a modelled value: True equals the
boolean True and also equals any number with numeric value one (in
Python, True == 1), and nothing else. -/
def pyEqTrue : Yaml → Bool
  | .bool b => b
  | .int n => n == 1
  | _ => false

/-- Python isinstance with the list type for a modelled value. -/
def isList : Yaml → Bool
  | .list _ => true
  | _ => false

/-- Python len for a modelled list value (the script only applies len to
values already known to be lists). -/
def pyLen : Yaml → Nat
  | .list xs => xs.length
  | _ => 0

/-- Violation text for the description rule. -/
def descMsg : String := "Missing or empty \x27description\x27"

/-- Violation text for an absent or falsy tags value. -/
def tagsMissingMsg : String := "Missing or empty \x27tags\x27"

/-- Violation text for a truthy non-list tags value. -/
def tagsNotListMsg : String := "\x27tags\x27 must be a list"

/-- Violation text for a tags list with fewer than two items. -/
def tagsTooFewMsg : String := "\x27tags\x27 must have at least 2 items"

/-- Violation text for a tags list with more than four items. -/
def tagsTooManyMsg : String := "\x27tags\x27 must have at most 4 items"

/-- Violation text for the comments rule. -/
def commentsMsg : String := "Missing or invalid \x27comments: true\x27"

/-- Violation text for a document with no usable frontmatter. -/
def missingFmMsg : String := "Missing frontmatter"

/-- The condition of the description rule, line 41 of the script: the key
description is not in the mapping, or the value fetched by get is falsy
(get of a present key returns its value, get of an absent key returns
None, which is falsy). -/
def descBad (fm : Fm) : Bool :=
  match fmGet fm "description" with
  | none => true
  | some v => pyFalsy v

/-- The if or elif chain of lines 45 to 52 of the script over the local
variable tags, modelled as the argument: it yields at most one of the
four tag violation texts. -/
def tagsChain (tags : Yaml) : List String :=
  if pyFalsy tags then [tagsMissingMsg]
  else if !(isList tags) then [tagsNotListMsg]
  else if pyLen tags < 2 then [tagsTooFewMsg]
  else if 4 < pyLen tags then [tagsTooManyMsg]
  else []

/-- The tags rule, lines 44 to 52 of the script: tags is fetched with the
default empty list, then the chain runs on it. -/
def tagsErrs (fm : Fm) : List String :=
  tagsChain ((fmGet fm "tags").getD (Yaml.list []))

/-- The condition of the comments rule, line 54 of the script: the value
fetched by get (None when absent) compares not equal to Python True. -/
def commentsBad (fm : Fm) : Bool :=
  !(pyEqTrue ((fmGet fm "comments").getD Yaml.null))

/-- The rule checking body of validate_frontmatter on a parsed mapping:
the errors list accumulated by the three appends, in source order
(description, then the tags chain, then comments). -/
def validate_fm (fm : Fm) : List String :=
  (if descBad fm then [descMsg] else [])
    ++ tagsErrs fm
    ++ (if commentsBad fm then [commentsMsg] else [])

/-- Type of a YAML parser as used by the script: given the inner text of
the header block it either raises (Except.error, as PyYAML does on
malformed input) or returns None (Except.ok none, as PyYAML does on empty
input) or returns a parsed mapping. -/
abbrev YamlParse : Type := List Char → Except Unit (Option Fm)

/-- Lines 26 to 30 of the script: match the frontmatter pattern against
the content; if there is no match return None, otherwise hand the first
capture group to yaml.safe_load.  There is no try or except here, so a
parser exception propagates to the caller. -/
def extract_frontmatter (p : YamlParse) (content : List Char) :
    Except Unit (Option Fm) :=
  match FRONTMATTER_REGEX content with
  | none => Except.ok none
  | some g => p g

/-- Lines 33 to 57 of the script, with the file read abstracted to the
content argument: extract the frontmatter, return the single violation
Missing frontmatter when the result is None, otherwise run the three
field rules.  A parser exception again propagates uncaught. -/
def validate_frontmatter (p : YamlParse) (content : List Char) :
    Except Unit (List String) :=
  match extract_frontmatter p content with
  | Except.error e => Except.error e
  | Except.ok none => Except.ok [missingFmMsg]
  | Except.ok (some fm) => Except.ok (validate_fm fm)

/-- Line 68 of the script: the formatted report entry for one file, a
leading newline, the path, a colon, then each violation on its own line
indented with two spaces and a dash. -/
def formatEntry (path : String) (errs : List String) : String :=
  "\n" ++ path ++ ":\n"
    ++ String.intercalate "\n" (errs.map (fun e => "  - " ++ e))

/-- Result of a whole run: the lines printed (one element per print call)
and the process exit code. -/
structure RunResult where
  output : List String
  exitCode : Nat
deriving DecidableEq

/-- Lines 64 to 69 of the script: walk the documents in order, validate
each one, and collect a formatted entry for every document whose
violation list is non-empty.  An uncaught parser exception aborts the
whole collection. -/
def collectErrors (p : YamlParse) :
    List (String × List Char) → Except Unit (List String)
  | [] => Except.ok []
  | d :: rest =>
    match validate_frontmatter p d.2 with
    | Except.error e => Except.error e
    | Except.ok ferrs =>
      match collectErrors p rest with
      | Except.error e => Except.error e
      | Except.ok tail =>
        Except.ok (if ferrs.isEmpty then tail else formatEntry d.1 ferrs :: tail)

/-- Lines 60 to 76 of the script, with file discovery abstracted to the
given list of path and content pairs: if any entries were collected,
print the failure header and the joined entries and exit with code 1;
otherwise print the success line (and the process ends with code 0). -/
def main_model (p : YamlParse) (docs : List (String × List Char)) :
    Except Unit RunResult :=
  match collectErrors p docs with
  | Except.error e => Except.error e
  | Except.ok errors =>
    if errors.isEmpty then
      Except.ok ⟨["All blog post frontmatter is valid."], 0⟩
    else
      Except.ok ⟨["Frontmatter validation failed:", String.join errors], 1⟩

/-- Lines 8 to 21 of the script: the declared tag vocabulary.  It is
defined by the script but never consulted by any rule. -/
def ALLOWED_TAGS : List String :=
  ["Python", "Testing", "Config Files", "Data Analysis", "Development",
   "Docker", "Pandas", "PyMC", "Marketing", "Design Patterns",
   "Documentation", "GitHub Actions"]

/-- Model of the external PyYAML function yaml.safe_load, which is not
part of this repository.  It is consulted below only at two inner texts,
where its behaviour is documented PyYAML behaviour: on the malformed
mapping text a colon b colon c, safe_load raises a ScannerError (mapping
values are not allowed here), modelled as Except.error; on empty inner
text it returns None, modelled as Except.ok none.  Every general theorem
below quantifies over an arbitrary parser instead of this model. -/
def safe_load_model : YamlParse := fun s =>
  if s = ("a: b: c").toList then Except.error ()
  else Except.ok none

/-- A sample parser used only to instantiate universally quantified
parser arguments of the theorems below: it parses the one-character inner
text k into a fixed valid mapping and anything else to None. -/
def demo_parse : YamlParse := fun s =>
  if s = ['k'] then
    Except.ok (some [("description", Yaml.str "Hello"),
                     ("tags", Yaml.list [Yaml.str "Python", Yaml.str "Testing"]),
                     ("comments", Yaml.bool true)])
  else Except.ok none

/-- Whether the document text begins, at position 0, with an opening
delimiter line: three dashes followed by optional whitespace and a
newline.  This is the claim-side reading of the anchoring of
FRONTMATTER_REGEX under re.match. -/
def delimLineAt0 : List Char → Bool
  | '-' :: '-' :: '-' :: rest => wsNl rest
  | _ => false

/-- The four tag violation texts, in source order. -/
def tagMsgs : List String :=
  [tagsMissingMsg, tagsNotListMsg, tagsTooFewMsg, tagsTooManyMsg]

/-- All six violation texts a mapping can produce, in source order. -/
def allMsgs : List String :=
  [descMsg, tagsMissingMsg, tagsNotListMsg, tagsTooFewMsg, tagsTooManyMsg,
   commentsMsg]

/-- Amended tags rule of claim C3, stated from the spec side: the first
branch fires when tags is absent or its value is falsy (this includes the
empty sequence and also the empty string, zero, false and null); then a
truthy non-sequence value must be a list; then a sequence of length one
needs at least two items; then a sequence of length five or more needs at
most four; otherwise no tag violation. -/
def tags_rule_spec (fm : Fm) : List String :=
  match fmGet fm "tags" with
  | none => [tagsMissingMsg]
  | some v =>
    if pyFalsy v then [tagsMissingMsg]
    else
      match v with
      | .list xs =>
        if xs.length = 1 then [tagsTooFewMsg]
        else if 5 ≤ xs.length then [tagsTooManyMsg]
        else []
      | _ => [tagsNotListMsg]

/-- A document whose header block contains YAML on which safe_load raises
(mapping values are not allowed here). -/
def badYamlDoc : List Char := ("---\na: b: c\n---\nBody text\n").toList

/-- A document with a present but empty header block. -/
def emptyHeaderDoc : List Char := ("---\n\n---\nHello\n").toList

/-- A document with no header block at all. -/
def noHeaderDoc : List Char := ("Hello world\n").toList

/-- A document whose opening delimiter line is preceded by one space, so
the pattern cannot match at position 0. -/
def indentedHeaderDoc : List Char := (" ---\ntitle: x\n---\n").toList

/-- A document whose header block demo_parse parses into a fully valid
mapping. -/
def goodDoc : List Char := ("---\nk\n---\nBody\n").toList

/-- A mapping with valid description and tags and the integer one as the
comments value. -/
def fmCommentsOne : Fm :=
  [("description", Yaml.str "x"),
   ("tags", Yaml.list [Yaml.str "a", Yaml.str "b"]),
   ("comments", Yaml.int 1)]

/-- A mapping whose tags value is the empty string. -/
def fmTagsEmptyStr : Fm :=
  [("description", Yaml.str "x"),
   ("tags", Yaml.str ""),
   ("comments", Yaml.bool true)]

/-- A valid mapping whose two tags are in the declared vocabulary. -/
def fmAllowed : Fm :=
  [("description", Yaml.str "d"),
   ("tags", Yaml.list [Yaml.str "Python", Yaml.str "Testing"]),
   ("comments", Yaml.bool true)]

/-- The same mapping except that both tag strings are outside the
declared vocabulary. -/
def fmUnlisted : Fm :=
  [("description", Yaml.str "d"),
   ("tags", Yaml.list [Yaml.str "Quantum Basketry", Yaml.str "Yak Shaving"]),
   ("comments", Yaml.bool true)]

/-- A sample valid document entry for the aggregator. -/
def docA : String × List Char :=
  ("docs/blog/posts/good.md", ("---\nk\n---\nBody\n").toList)

/-- A sample invalid document entry for the aggregator. -/
def docB : String × List Char :=
  ("docs/blog/posts/bad.md", ("Hello world\n").toList)

theorem openRest_wsNl : ∀ {s g : List Char}, openRest s = some g → wsNl s = true := by
  intro s
  induction s with
  | nil => intro g h; simp [openRest] at h
  | cons c rest ih =>
    intro g h
    rw [openRest] at h
    rw [wsNl]
    cases hs : isSpace c with
    | false => rw [hs] at h; simp at h
    | true =>
      rw [hs] at h
      simp only [if_true] at h
      cases hn : (c == '\n') with
      | true => simp
      | false =>
        simp only [hn, if_false, hs, Bool.true_and]
        cases ho : openRest rest with
        | some g2 => exact ih ho
        | none => rw [ho, hn] at h; simp at h

theorem regex_some_delim {content g : List Char}
    (h : FRONTMATTER_REGEX content = some g) : delimLineAt0 content = true := by
  unfold FRONTMATTER_REGEX at h
  unfold delimLineAt0
  split at h
  · exact openRest_wsNl h
  · simp at h

/-- Claim C5: for every document whose text lacks the header delimiter
pair at position 0 (the anchored pattern finds no match), the checker
output is exactly the single element list containing Missing frontmatter,
and this holds for every parser, so no field rule is evaluated. -/
theorem C5_missing_frontmatter (p : YamlParse) (content : List Char)
    (h : FRONTMATTER_REGEX content = none) :
    validate_frontmatter p content = Except.ok [missingFmMsg] := by
  unfold validate_frontmatter extract_frontmatter
  rw [h]

/-- Witness for C5 at a concrete document with no header block. -/
theorem C5_missing_frontmatter_witness :
    FRONTMATTER_REGEX noHeaderDoc = none ∧
    validate_frontmatter safe_load_model noHeaderDoc = Except.ok [missingFmMsg] :=
  ⟨rfl, C5_missing_frontmatter safe_load_model noHeaderDoc rfl⟩

/-- Claim C7: a header block is recognized only when the match begins at
position 0 of the text: whenever the text does not begin with an opening
delimiter line (three dashes, optional whitespace, newline) at position
0, for instance because leading whitespace, a blank line or any other
content precedes the first three dash line, extraction returns the
Absent result, for every parser. -/
theorem C7_anchored (p : YamlParse) (content : List Char)
    (h : delimLineAt0 content = false) :
    extract_frontmatter p content = Except.ok none := by
  unfold extract_frontmatter
  cases hm : FRONTMATTER_REGEX content with
  | none => rfl
  | some g => rw [regex_some_delim hm] at h; exact Bool.noConfusion h

/-- Witness for C7 at a document whose delimiter line is preceded by a
space. -/
theorem C7_anchored_witness :
    delimLineAt0 indentedHeaderDoc = false ∧
    extract_frontmatter safe_load_model indentedHeaderDoc = Except.ok none :=
  ⟨rfl, C7_anchored safe_load_model indentedHeaderDoc rfl⟩

/-- Counterexample to claim C2 as stated: on a document whose present
header block holds malformed structured text, the parse failure is not
caught and not converted into the Missing frontmatter outcome; the model
of safe_load raises on this inner text exactly as PyYAML does, and the
error propagates out of validate_frontmatter. -/
theorem C2_cex :
    validate_frontmatter safe_load_model badYamlDoc = Except.error () ∧
    validate_frontmatter safe_load_model badYamlDoc ≠ Except.ok [missingFmMsg] :=
  ⟨rfl, fun h => nomatch h⟩

/-- Claim C2 as amended: when the header block is present (the pattern
matches with inner text g) and the parser raises on g, the exception
propagates uncaught out of validate_frontmatter, and a whole run
containing that document aborts with the error instead of continuing
with the next documents. -/
theorem C2_amended (p : YamlParse) (content g : List Char) (path : String)
    (rest : List (String × List Char))
    (h : FRONTMATTER_REGEX content = some g) (hp : p g = Except.error ()) :
    validate_frontmatter p content = Except.error () ∧
    main_model p ((path, content) :: rest) = Except.error () := by
  have hv : validate_frontmatter p content = Except.error () := by
    unfold validate_frontmatter extract_frontmatter
    rw [h]
    dsimp only
    rw [hp]
  refine ⟨hv, ?_⟩
  have hc : collectErrors p ((path, content) :: rest) = Except.error () := by
    simp only [collectErrors]
    rw [hv]
  simp only [main_model]
  rw [hc]

/-- Witness for the amended claim C2 at a concrete malformed document. -/
theorem C2_amended_witness :
    FRONTMATTER_REGEX badYamlDoc = some (("a: b: c").toList) ∧
    safe_load_model (("a: b: c").toList) = Except.error () ∧
    validate_frontmatter safe_load_model badYamlDoc = Except.error () ∧
    main_model safe_load_model [("docs/blog/posts/bad.md", badYamlDoc)] =
      Except.error () := by
  refine ⟨rfl, rfl, ?_⟩
  exact C2_amended safe_load_model badYamlDoc (("a: b: c").toList)
    "docs/blog/posts/bad.md" [] rfl rfl

/-- Counterexample to claim C4 as stated: a present but empty header
block is not distinguished from an absent one; extraction returns the
very same Absent result (the parser returns None on the blank inner
text, as safe_load does), and both documents get Missing frontmatter. -/
theorem C4_cex :
    extract_frontmatter safe_load_model emptyHeaderDoc = Except.ok none ∧
    extract_frontmatter safe_load_model noHeaderDoc = Except.ok none ∧
    validate_frontmatter safe_load_model emptyHeaderDoc =
      Except.ok [missingFmMsg] :=
  ⟨rfl, rfl, rfl⟩

/-- Claim C4 as amended: when the header block is present but its inner
text parses to None (as an empty or blank block does), extraction
returns exactly the Absent result, so the document is treated the same
way as one with no header block and receives Missing frontmatter. -/
theorem C4_amended (p : YamlParse) (content g : List Char)
    (h : FRONTMATTER_REGEX content = some g) (hp : p g = Except.ok none) :
    extract_frontmatter p content = Except.ok none ∧
    validate_frontmatter p content = Except.ok [missingFmMsg] := by
  have he : extract_frontmatter p content = Except.ok none := by
    unfold extract_frontmatter
    rw [h]
    dsimp only
    rw [hp]
  refine ⟨he, ?_⟩
  unfold validate_frontmatter
  rw [he]

/-- Witness for the amended claim C4 at a concrete document with an
empty header block. -/
theorem C4_amended_witness :
    FRONTMATTER_REGEX emptyHeaderDoc = some [] ∧
    safe_load_model [] = Except.ok none ∧
    extract_frontmatter safe_load_model emptyHeaderDoc = Except.ok none ∧
    validate_frontmatter safe_load_model emptyHeaderDoc =
      Except.ok [missingFmMsg] := by
  refine ⟨rfl, rfl, ?_⟩
  exact C4_amended safe_load_model emptyHeaderDoc [] rfl rfl

theorem tagsChain_cases (t : Yaml) :
    tagsChain t = [] ∨ tagsChain t = [tagsMissingMsg] ∨
    tagsChain t = [tagsNotListMsg] ∨ tagsChain t = [tagsTooFewMsg] ∨
    tagsChain t = [tagsTooManyMsg] := by
  unfold tagsChain
  split
  · simp
  · split
    · simp
    · split
      · simp
      · split
        · simp
        · simp

theorem tagsErrs_cases (fm : Fm) :
    tagsErrs fm = [] ∨ tagsErrs fm = [tagsMissingMsg] ∨
    tagsErrs fm = [tagsNotListMsg] ∨ tagsErrs fm = [tagsTooFewMsg] ∨
    tagsErrs fm = [tagsTooManyMsg] :=
  tagsChain_cases _

theorem comments_mem_iff (fm : Fm) :
    commentsMsg ∈ validate_fm fm ↔ commentsBad fm = true := by
  unfold validate_fm
  rcases tagsErrs_cases fm with h5 | h5 | h5 | h5 | h5 <;>
    rw [h5] <;>
    cases hd : descBad fm <;> cases hc : commentsBad fm <;>
      simp [hd, hc, descMsg, tagsMissingMsg, tagsNotListMsg, tagsTooFewMsg,
        tagsTooManyMsg, commentsMsg]

theorem desc_mem_iff (fm : Fm) :
    descMsg ∈ validate_fm fm ↔ descBad fm = true := by
  unfold validate_fm
  rcases tagsErrs_cases fm with h5 | h5 | h5 | h5 | h5 <;>
    rw [h5] <;>
    cases hd : descBad fm <;> cases hc : commentsBad fm <;>
      simp [hd, hc, descMsg, tagsMissingMsg, tagsNotListMsg, tagsTooFewMsg,
        tagsTooManyMsg, commentsMsg]

theorem commentsBad_false_iff (fm : Fm) :
    commentsBad fm = false ↔
      (fmGet fm "comments" = some (Yaml.bool true) ∨
       fmGet fm "comments" = some (Yaml.int 1)) := by
  unfold commentsBad
  cases hg : fmGet fm "comments" with
  | none => simp [pyEqTrue]
  | some v =>
    cases v with
    | null => simp [pyEqTrue]
    | bool b => cases b <;> simp [pyEqTrue]
    | int n =>
      simp only [Option.getD_some, pyEqTrue, Bool.not_eq_false', beq_iff_eq,
        Option.some.injEq, Yaml.int.injEq]
      constructor
      · intro h
        right
        rw [h]
      · rintro (h | h)
        · exact absurd h (by simp)
        · exact h
    | str s => simp [pyEqTrue]
    | list xs => simp [pyEqTrue]

/-- Counterexample to claim C1 as stated: a mapping whose comments value
is the integer one produces no comments violation (in Python the integer
one compares equal to True), while the claim says every truthy
non-boolean value fires the violation. -/
theorem C1_cex :
    validate_fm fmCommentsOne = [] ∧ commentsMsg ∉ validate_fm fmCommentsOne :=
  ⟨rfl, by decide⟩

/-- Claim C1 as amended: the comments violation is absent from the
output exactly when the comments value compares equal to Python True,
that is, exactly when it is the boolean true or the integer one; the
string true, the absent key, and every other value produce the
violation. -/
theorem C1_amended (fm : Fm) :
    commentsMsg ∉ validate_fm fm ↔
      (fmGet fm "comments" = some (Yaml.bool true) ∨
       fmGet fm "comments" = some (Yaml.int 1)) := by
  rw [← commentsBad_false_iff]
  rw [← Bool.not_eq_true (commentsBad fm)]
  exact not_congr (comments_mem_iff fm)

/-- Witness for the amended claim C1, applying it at a mapping whose
comments value is the integer one. -/
theorem C1_amended_witness : commentsMsg ∉ validate_fm fmCommentsOne :=
  (C1_amended fmCommentsOne).mpr (Or.inr rfl)

/-- Claim C9: the description violation is in the output exactly when
the description key is absent or its value counts as empty in the Python
sense (falsy: the empty string, but also null, false, zero and the empty
sequence); in particular a present non-empty string value never produces
it. -/
theorem C9_description (fm : Fm) :
    descMsg ∈ validate_fm fm ↔
      (fmGet fm "description" = none ∨
       pyFalsy ((fmGet fm "description").getD Yaml.null) = true) := by
  rw [desc_mem_iff]
  unfold descBad
  cases hg : fmGet fm "description" with
  | none => simp
  | some v => simp

theorem tagsErrs_eq_spec (fm : Fm) : tagsErrs fm = tags_rule_spec fm := by
  unfold tagsErrs tags_rule_spec tagsChain
  cases hg : fmGet fm "tags" with
  | none => simp [pyFalsy]
  | some v =>
    simp only [Option.getD_some]
    cases v with
    | null => simp [pyFalsy]
    | bool b => cases b <;> simp [pyFalsy, isList]
    | int n =>
      by_cases hz : n = 0
      · subst hz; simp [pyFalsy]
      · simp [pyFalsy, isList, hz]
    | str s =>
      by_cases hs : s = ""
      · subst hs; simp [pyFalsy]
      · simp [pyFalsy, isList, hs]
    | list xs =>
      cases xs with
      | nil => simp [pyFalsy]
      | cons x xt =>
        simp only [pyFalsy, isList, pyLen, List.isEmpty_cons, Bool.not_true,
          Bool.false_eq_true, if_false, List.length_cons]
        split_ifs <;> first | rfl | omega
/-- Counterexample to claim C3 as stated: a mapping whose tags value is
the empty string gets the first violation, Missing or empty tags,
because the empty string is falsy, while the claim assigns empty string
values to the must-be-a-list branch. -/
theorem C3_cex :
    validate_fm fmTagsEmptyStr = [tagsMissingMsg] ∧
    tagsNotListMsg ∉ validate_fm fmTagsEmptyStr :=
  ⟨rfl, by decide⟩

/-- Claim C3 as amended: the tags field produces exactly one of five
mutually exclusive outcomes, decided in priority order, with the first
branch firing on an absent or falsy value (the empty sequence, but also
the empty string, zero, false and null), the second on a truthy
non-sequence value, the third on a one element sequence, the fourth on a
sequence of five or more, and otherwise no tags violation; at most one
tags violation appears in the output. -/
theorem C3_amended (fm : Fm) :
    (validate_fm fm).filter (fun s => tagMsgs.contains s) = tags_rule_spec fm ∧
    ((validate_fm fm).filter (fun s => tagMsgs.contains s)).length ≤ 1 := by
  have hfil :
      (validate_fm fm).filter (fun s => tagMsgs.contains s) = tagsErrs fm := by
    unfold validate_fm
    rw [List.filter_append, List.filter_append]
    have hd : (if descBad fm then [descMsg] else []).filter
        (fun s => tagMsgs.contains s) = [] := by
      by_cases hdb : descBad fm = true
      · rw [if_pos hdb]; decide
      · rw [if_neg hdb]; rfl
    have hc : (if commentsBad fm then [commentsMsg] else []).filter
        (fun s => tagMsgs.contains s) = [] := by
      by_cases hcb : commentsBad fm = true
      · rw [if_pos hcb]; decide
      · rw [if_neg hcb]; rfl
    have ht : (tagsErrs fm).filter (fun s => tagMsgs.contains s) = tagsErrs fm := by
      rcases tagsErrs_cases fm with h | h | h | h | h <;> rw [h] <;> decide
    rw [hd, hc, ht]
    simp
  refine ⟨hfil.trans (tagsErrs_eq_spec fm), ?_⟩
  rw [hfil]
  rcases tagsErrs_cases fm with h | h | h | h | h <;> rw [h] <;> decide

/-- Claim C10: on any parsed mapping the output is the concatenation of
three slots in fixed source order (an optional description violation, at
most one of the four tags violations, an optional comments violation),
so the list never exceeds three elements and every element is one of the
six fixed message strings. -/
theorem C10_shape (fm : Fm) :
    (∃ d t c, validate_fm fm = d ++ t ++ c ∧
      (d = [] ∨ d = [descMsg]) ∧
      (t = [] ∨ t = [tagsMissingMsg] ∨ t = [tagsNotListMsg] ∨
        t = [tagsTooFewMsg] ∨ t = [tagsTooManyMsg]) ∧
      (c = [] ∨ c = [commentsMsg])) ∧
    (validate_fm fm).length ≤ 3 ∧
    ∀ s ∈ validate_fm fm, s ∈ allMsgs := by
  refine ⟨⟨(if descBad fm then [descMsg] else []), tagsErrs fm,
    (if commentsBad fm then [commentsMsg] else []), rfl, ?_,
    tagsErrs_cases fm, ?_⟩, ?_, ?_⟩
  · by_cases h : descBad fm = true
    · right; rw [if_pos h]
    · left; rw [if_neg h]
  · by_cases h : commentsBad fm = true
    · right; rw [if_pos h]
    · left; rw [if_neg h]
  · unfold validate_fm
    rcases tagsErrs_cases fm with h | h | h | h | h <;> rw [h] <;>
      cases hd : descBad fm <;>
        cases hc : commentsBad fm <;> decide
  · unfold validate_fm
    rcases tagsErrs_cases fm with h | h | h | h | h <;> rw [h] <;>
      cases hd : descBad fm <;>
        cases hc : commentsBad fm <;> decide

/-- Witness for claim C10, applying it at a concrete valid mapping. -/
theorem C10_shape_witness :
    (∃ d t c, validate_fm fmAllowed = d ++ t ++ c ∧
      (d = [] ∨ d = [descMsg]) ∧
      (t = [] ∨ t = [tagsMissingMsg] ∨ t = [tagsNotListMsg] ∨
        t = [tagsTooFewMsg] ∨ t = [tagsTooManyMsg]) ∧
      (c = [] ∨ c = [commentsMsg])) ∧
    (validate_fm fmAllowed).length ≤ 3 ∧
    ∀ s ∈ validate_fm fmAllowed, s ∈ allMsgs :=
  C10_shape fmAllowed

theorem tagsChain_inrange (zs : List Yaml) (h2 : 2 ≤ zs.length)
    (h4 : zs.length ≤ 4) : tagsChain (Yaml.list zs) = [] := by
  unfold tagsChain
  cases zs with
  | nil => simp at h2
  | cons x xt =>
    simp only [List.length_cons] at h2 h4
    simp only [pyFalsy, isList, pyLen, List.isEmpty_cons, Bool.not_true,
      Bool.false_eq_true, if_false, List.length_cons]
    split_ifs <;> first | rfl | omega

/-- Claim C8: membership of tag values in the declared allow set is not
checked by any rule: two mappings that agree on description and comments
and whose tags values are string sequences of the same length between
two and four produce the same violation list, whatever the strings are;
so tags outside ALLOWED_TAGS never produce a violation. -/
theorem C8_tags_values (fm1 fm2 : Fm) (xs ys : List String)
    (hd : fmGet fm1 "description" = fmGet fm2 "description")
    (hc : fmGet fm1 "comments" = fmGet fm2 "comments")
    (ht1 : fmGet fm1 "tags" = some (Yaml.list (xs.map Yaml.str)))
    (ht2 : fmGet fm2 "tags" = some (Yaml.list (ys.map Yaml.str)))
    (hlen : xs.length = ys.length) (hlo : 2 ≤ xs.length)
    (hhi : xs.length ≤ 4) :
    validate_fm fm1 = validate_fm fm2 := by
  have hdb : descBad fm1 = descBad fm2 := by unfold descBad; rw [hd]
  have hcb : commentsBad fm1 = commentsBad fm2 := by unfold commentsBad; rw [hc]
  have ht1e : tagsErrs fm1 = [] := by
    unfold tagsErrs
    rw [ht1]
    exact tagsChain_inrange _ (by simpa using hlo) (by simpa using hhi)
  have ht2e : tagsErrs fm2 = [] := by
    unfold tagsErrs
    rw [ht2]
    refine tagsChain_inrange _ ?_ ?_ <;> simp <;> omega
  unfold validate_fm
  rw [hdb, hcb, ht1e, ht2e]

/-- Witness for claim C8: a mapping with two vocabulary tags and one
with two tags outside ALLOWED_TAGS get the same (empty) violation
list. -/
theorem C8_tags_values_witness :
    ("Quantum Basketry" ∉ ALLOWED_TAGS ∧ "Yak Shaving" ∉ ALLOWED_TAGS) ∧
    validate_fm fmAllowed = validate_fm fmUnlisted := by
  refine ⟨⟨by decide, by decide⟩, ?_⟩
  exact C8_tags_values fmAllowed fmUnlisted ["Python", "Testing"]
    ["Quantum Basketry", "Yak Shaving"] rfl rfl rfl rfl rfl
    (by decide) (by decide)

theorem collectErrors_spec (p : YamlParse) (docs : List (String × List Char))
    (vs : List (List String))
    (h : List.Forall₂ (fun d v => validate_frontmatter p d.2 = Except.ok v) docs vs) :
    collectErrors p docs =
      Except.ok (((docs.zip vs).filter (fun dv => !dv.2.isEmpty)).map
        (fun dv => formatEntry dv.1.1 dv.2)) := by
  induction h with
  | nil => rfl
  | @cons d v docs2 vs2 hdv htail ih =>
    simp only [collectErrors]
    rw [hdv, ih]
    dsimp only
    simp only [List.zip_cons_cons, List.filter_cons]
    cases hv : v.isEmpty with
    | true => simp [hv]
    | false => simp [hv]

/-- Claim C6: over a run in which every document validates without a
parser exception, the report holds exactly the formatted entries of the
documents with a non-empty violation list, in order; if there are none
the run prints the single success line and exits with code 0, and
otherwise it prints the failure header followed by the joined entries
(each entry being the path line plus its indented violations) and exits
with code 1. -/
theorem C6_report (p : YamlParse) (docs : List (String × List Char))
    (vs : List (List String))
    (h : List.Forall₂ (fun d v => validate_frontmatter p d.2 = Except.ok v) docs vs) :
    main_model p docs =
      Except.ok
        (if ((docs.zip vs).filter (fun dv => !dv.2.isEmpty)) = [] then
          ⟨["All blog post frontmatter is valid."], 0⟩
        else
          ⟨["Frontmatter validation failed:",
            String.join (((docs.zip vs).filter (fun dv => !dv.2.isEmpty)).map
              (fun dv => formatEntry dv.1.1 dv.2))], 1⟩) := by
  unfold main_model
  rw [collectErrors_spec p docs vs h]
  cases hl : (docs.zip vs).filter (fun dv => !dv.2.isEmpty) with
  | nil => rfl
  | cons a l => rfl

/-- Witness for claim C6 on a two document run, one valid and one
invalid: the report holds exactly the invalid path with its violation
indented, and the exit code is 1. -/
theorem C6_report_witness :
    List.Forall₂ (fun (d : String × List Char) (v : List String) =>
        validate_frontmatter demo_parse d.2 = Except.ok v)
      [docA, docB] [[], [missingFmMsg]] ∧
    main_model demo_parse [docA, docB] =
      Except.ok ⟨["Frontmatter validation failed:",
        "\ndocs/blog/posts/bad.md:\n  - Missing frontmatter"], 1⟩ := by
  have hf : List.Forall₂ (fun (d : String × List Char) (v : List String) =>
      validate_frontmatter demo_parse d.2 = Except.ok v)
      [docA, docB] [[], [missingFmMsg]] :=
    List.Forall₂.cons rfl (List.Forall₂.cons rfl List.Forall₂.nil)
  exact ⟨hf, C6_report demo_parse [docA, docB] [[], [missingFmMsg]] hf⟩
